import Mathlib

/-!
Formalisation of the movixbox backend (src/main.py) and of the
mirror-retry executor described in the design specification.

The FastAPI handlers in src/main.py are embedded as pure Lean functions:
the external `moviebox_api` search client becomes an explicit function
parameter, the in-memory `search_cache` dict becomes an explicit
`String → Option SearchResponse` state threaded through the handler, and
Python exceptions become `Except` values.  The `MirrorRetryExecutor` of
the specification has no implementation under src/, so it is modelled
from the specification text (its definitions say so in their doc
comments).
-/

/- ### Mirror retry executor (modelled from the specification) -/

/-- Modelled from the spec: the error taxonomy of the MirrorRetryExecutor
(§7).  `configurationError` is raised for an empty candidate host list;
`allMirrorsFailed` is the aggregated `AllMirrorsFailedError`, carrying the
last attempt's underlying error.  No executor implementation exists under
src/; only the specification describes it. -/
inductive MirrorError (ε : Type) where
  | configurationError : MirrorError ε
  | allMirrorsFailed (last : ε) : MirrorError ε
deriving Repr

/-- Modelled from the spec: the observable outcome of one executor call —
the returned result or aggregated error, the globally selected host after
the call (the spec's process-wide "current host", left at whatever host
was tried last), and the ordered list of hosts that were attempted. -/
structure ExecOutcome (ρ ε : Type) where
  result : Except (MirrorError ε) ρ
  selected : Option String
  attempts : List String
deriving Repr

/-- Whether an `Except` value is a success. -/
def exceptOk : Except ε ρ → Bool
  | .ok _ => true
  | .error _ => false

/-- Modelled from the spec: the executor's retry loop (§4.1 behaviour
steps 2–3).  For each host of the (already shuffled) list in order: set
it as the selected host, invoke the operation, return immediately on
success, otherwise record the error and continue; once the list is
exhausted, fail with the aggregated error carrying the last underlying
error.  `sel` is the selected host on entry, `tried` accumulates the
attempted hosts in reverse, `lastErr` is the most recent underlying
error. -/
def tryHosts (op : String → Except ε ρ) :
    List String → Option String → List String → Option ε → ExecOutcome ρ ε
  | [], sel, tried, lastErr =>
    { result := .error (match lastErr with
        | some e => .allMirrorsFailed e
        | none => .configurationError)
      selected := sel
      attempts := tried.reverse }
  | h :: rest, _, tried, _ =>
    match op h with
    | .ok r => { result := .ok r, selected := some h, attempts := (h :: tried).reverse }
    | .error e => tryHosts op rest (some h) (h :: tried) (some e)

/-- Modelled from the spec: one call of the MirrorRetryExecutor (§4.1).
`perm` is the random permutation of the candidate host list produced for
this call (randomness is modelled by quantifying over the permutation);
`sel` is the globally selected host before the call.  An empty candidate
list fails with `configurationError` and makes no attempt. -/
def mirrorRetryExecute (op : String → Except ε ρ) (perm : List String)
    (sel : Option String) : ExecOutcome ρ ε :=
  if perm.isEmpty then
    { result := .error .configurationError, selected := sel, attempts := [] }
  else
    tryHosts op perm sel [] none

lemma getLast?_reverse_cons (a : α) (l : List α) :
    ((a :: l).reverse).getLast? = some a := by
  rw [List.getLast?_reverse]; rfl

lemma tryHosts_unique_success (op : String → Except ε ρ) (h : String) (v : ρ)
    (hok : op h = .ok v) :
    ∀ (l : List String), h ∈ l → (∀ x ∈ l, exceptOk (op x) = true → x = h) →
    ∀ (sel : Option String) (tried : List String) (lastErr : Option ε),
      (tryHosts op l sel tried lastErr).result = .ok v ∧
      (tryHosts op l sel tried lastErr).selected = some h ∧
      (tryHosts op l sel tried lastErr).attempts.getLast? = some h := by
  intro l
  induction l with
  | nil => intro hmem; exact absurd hmem (List.not_mem_nil h)
  | cons a t ih =>
    intro hmem huniq sel tried lastErr
    by_cases ha : exceptOk (op a) = true
    · have hah : a = h := huniq a (List.mem_cons_self a t) ha
      subst hah
      simp [tryHosts, hok, getLast?_reverse_cons]
    · have hne : a ≠ h := by
        intro hEq; subst hEq; rw [hok] at ha; exact ha rfl
      obtain he : ∃ e, op a = .error e := by
        cases hcase : op a with
        | ok r => rw [hcase] at ha; exact absurd rfl ha
        | error e => exact ⟨e, rfl⟩
      obtain ⟨e, he⟩ := he
      have hmem' : h ∈ t := by
        cases List.mem_cons.mp hmem with
        | inl hEq => exact absurd hEq.symm hne
        | inr hmt => exact hmt
      have huniq' : ∀ x ∈ t, exceptOk (op x) = true → x = h := fun x hx =>
        huniq x (List.mem_cons_of_mem a hx)
      simp only [tryHosts, he]
      exact ih hmem' huniq' (some a) (a :: tried) (some e)

lemma tryHosts_all_fail (op : String → Except ε ρ) (err : String → ε)
    (lastHost : String) :
    ∀ (front : List String), (∀ x ∈ front ++ [lastHost], op x = .error (err x)) →
    ∀ (sel : Option String) (tried : List String) (lastErr : Option ε),
      tryHosts op (front ++ [lastHost]) sel tried lastErr =
        { result := .error (.allMirrorsFailed (err lastHost))
          selected := some lastHost
          attempts := tried.reverse ++ (front ++ [lastHost]) } := by
  intro front
  induction front with
  | nil =>
    intro hop sel tried lastErr
    have hlast : op lastHost = .error (err lastHost) :=
      hop lastHost (by simp)
    simp only [List.nil_append, tryHosts, hlast]
    simp [tryHosts]
  | cons a t ih =>
    intro hop sel tried lastErr
    have ha : op a = .error (err a) := hop a (by simp)
    have hop' : ∀ x ∈ t ++ [lastHost], op x = .error (err x) := fun x hx =>
      hop x (List.mem_cons_of_mem a hx)
    simp only [List.cons_append, tryHosts, ha, List.append_eq]
    rw [ih hop' (some a) (a :: tried) (some (err a))]
    simp

lemma tryHosts_ok_any (op : String → Except ε ρ) :
    ∀ (l : List String) (sel : Option String) (tried : List String)
      (lastErr : Option ε),
      exceptOk (tryHosts op l sel tried lastErr).result =
        l.any (fun x => exceptOk (op x)) := by
  intro l
  induction l with
  | nil => intro sel tried lastErr; cases lastErr <;> simp [tryHosts, exceptOk]
  | cons a t ih =>
    intro sel tried lastErr
    cases hcase : op a with
    | ok r => simp [tryHosts, hcase, exceptOk]
    | error e =>
      simp only [tryHosts, hcase, List.any_cons]
      rw [ih]
      simp [hcase, exceptOk]

lemma mirror_ok_any (op : String → Except ε ρ) (perm : List String)
    (sel : Option String) :
    exceptOk (mirrorRetryExecute op perm sel).result =
      perm.any (fun x => exceptOk (op x)) := by
  unfold mirrorRetryExecute
  by_cases hp : perm.isEmpty
  · have : perm = [] := List.isEmpty_iff.mp hp
    subst this
    simp [exceptOk]
  · simp only [hp, if_neg, Bool.false_eq_true, not_false_eq_true, if_false]
    exact tryHosts_ok_any op perm sel [] none

lemma any_eq_of_perm (p : String → Bool) {l₁ l₂ : List String}
    (h : l₁.Perm l₂) : l₁.any p = l₂.any p := by
  cases hc : l₂.any p with
  | true =>
    obtain ⟨x, hx, hpx⟩ := List.any_eq_true.mp hc
    exact List.any_eq_true.mpr ⟨x, h.mem_iff.mpr hx, hpx⟩
  | false =>
    cases hc' : l₁.any p with
    | true =>
      obtain ⟨x, hx, hpx⟩ := List.any_eq_true.mp hc'
      have : l₂.any p = true := List.any_eq_true.mpr ⟨x, h.mem_iff.mp hx, hpx⟩
      rw [this] at hc; exact absurd hc (by simp)
    | false => rfl

/-- Claim C1: for a non-empty host list `H` and an operation succeeding on
exactly one host `h ∈ H`, the executor (under any permutation of `H`
chosen for the call) returns that operation's result, the globally
selected host after the call is `h`, and no host is tried after the
successful one (`h` is the last attempted host). -/
theorem mirror_unique_success (op : String → Except ε ρ) (H perm : List String)
    (sel : Option String) (h : String) (v : ρ)
    (hperm : perm.Perm H) (hmem : h ∈ H) (hok : op h = .ok v)
    (huniq : ∀ x ∈ H, exceptOk (op x) = true → x = h) :
    (mirrorRetryExecute op perm sel).result = .ok v ∧
    (mirrorRetryExecute op perm sel).selected = some h ∧
    (mirrorRetryExecute op perm sel).attempts.getLast? = some h := by
  have hmemp : h ∈ perm := hperm.mem_iff.mpr hmem
  have hne : perm ≠ [] := by
    intro hEq; subst hEq; exact List.not_mem_nil h hmemp
  have hempty : perm.isEmpty = false := List.isEmpty_eq_false.mpr hne
  have huniq' : ∀ x ∈ perm, exceptOk (op x) = true → x = h := fun x hx =>
    huniq x (hperm.mem_iff.mp hx)
  unfold mirrorRetryExecute
  rw [hempty]
  simp only [Bool.false_eq_true, if_false]
  exact tryHosts_unique_success op h v hok perm hmemp huniq' sel [] none

/-- Claim C1 witness: hosts a, b, c; only c succeeds (with value 42);
permutation b, c, a. -/
theorem mirror_unique_success_witness :
    (mirrorRetryExecute
        (fun x => if x = "c" then Except.ok 42 else Except.error "down")
        ["b", "c", "a"] (some "z")).result = .ok 42 ∧
    (mirrorRetryExecute
        (fun x => if x = "c" then Except.ok 42 else Except.error "down")
        ["b", "c", "a"] (some "z")).selected = some "c" ∧
    (mirrorRetryExecute
        (fun x => if x = "c" then Except.ok 42 else Except.error "down")
        ["b", "c", "a"] (some "z")).attempts.getLast? = some "c" :=
  mirror_unique_success
    (fun x => if x = "c" then Except.ok 42 else Except.error "down")
    ["a", "b", "c"] ["b", "c", "a"] (some "z") "c" 42
    (by decide) (by decide) rfl (by decide)

/-- Claim C2: when the operation fails on every host of the (non-empty)
permutation, the executor fails with the single aggregated
`allMirrorsFailed` error carrying the last attempted host's underlying
error; every host is attempted in order and no per-host error appears in
the result. -/
theorem mirror_all_fail (op : String → Except ε ρ) (err : String → ε)
    (front : List String) (lastHost : String) (perm : List String)
    (sel : Option String)
    (hsplit : perm = front ++ [lastHost])
    (hop : ∀ x ∈ perm, op x = .error (err x)) :
    (mirrorRetryExecute op perm sel).result =
      .error (.allMirrorsFailed (err lastHost)) ∧
    (mirrorRetryExecute op perm sel).selected = some lastHost ∧
    (mirrorRetryExecute op perm sel).attempts = perm := by
  subst hsplit
  have hne : front ++ [lastHost] ≠ [] :=
    List.append_ne_nil_of_right_ne_nil front (by simp)
  have hempty : (front ++ [lastHost]).isEmpty = false :=
    List.isEmpty_eq_false.mpr hne
  unfold mirrorRetryExecute
  rw [hempty]
  simp only [Bool.false_eq_true, if_false]
  rw [tryHosts_all_fail op err lastHost front hop sel [] none]
  simp

/-- Claim C2 witness: two hosts, both failing; the aggregated error
carries host b's (the last attempted host's) error. -/
theorem mirror_all_fail_witness :
    (mirrorRetryExecute (fun x => (Except.error ("E" ++ x) : Except String Nat))
        ["a", "b"] none).result =
      .error (.allMirrorsFailed "Eb") ∧
    (mirrorRetryExecute (fun x => (Except.error ("E" ++ x) : Except String Nat))
        ["a", "b"] none).selected = some "b" ∧
    (mirrorRetryExecute (fun x => (Except.error ("E" ++ x) : Except String Nat))
        ["a", "b"] none).attempts = ["a", "b"] :=
  mirror_all_fail (fun x => (Except.error ("E" ++ x) : Except String Nat))
    (fun x => "E" ++ x) ["a"] "b" ["a", "b"] none (by decide)
    (by intro x hx; rfl)

/-- Claim C5: on an empty candidate host list the executor fails with
`configurationError`, attempts no host (so the delegated operation is
invoked zero times), and leaves the selected host unchanged. -/
theorem mirror_empty_config_error (op : String → Except ε ρ)
    (sel : Option String) :
    mirrorRetryExecute op [] sel =
      { result := .error .configurationError, selected := sel, attempts := [] } :=
  rfl

/-- Claim C6: the executor's success/failure verdict is independent of the
permutation chosen for the call: permutation-equal host lists (under any
prior selected-host states) give the same verdict, and whenever some host
of the list succeeds the call succeeds. -/
theorem mirror_verdict_perm_invariant (op : String → Except ε ρ)
    (p₁ p₂ : List String) (s₁ s₂ : Option String) (hperm : p₁.Perm p₂) :
    exceptOk (mirrorRetryExecute op p₁ s₁).result =
      exceptOk (mirrorRetryExecute op p₂ s₂).result ∧
    (∀ h ∈ p₁, exceptOk (op h) = true →
      exceptOk (mirrorRetryExecute op p₁ s₁).result = true) := by
  constructor
  · rw [mirror_ok_any, mirror_ok_any]
    exact any_eq_of_perm (fun x => exceptOk (op x)) hperm
  · intro h hmem hok
    rw [mirror_ok_any]
    exact List.any_eq_true.mpr ⟨h, hmem, hok⟩

/-- Claim C6 witness: two permutations of the same two-host list; host a
succeeds, so both orders give a success verdict. -/
theorem mirror_verdict_perm_invariant_witness :
    exceptOk (mirrorRetryExecute
        (fun x => if x = "a" then Except.ok 1 else Except.error "down")
        ["a", "b"] none).result =
      exceptOk (mirrorRetryExecute
        (fun x => if x = "a" then Except.ok 1 else Except.error "down")
        ["b", "a"] (some "b")).result ∧
    (∀ h ∈ ["a", "b"],
      exceptOk ((fun x => if x = "a" then Except.ok 1 else Except.error "down") h) = true →
      exceptOk (mirrorRetryExecute
        (fun x => if x = "a" then Except.ok 1 else Except.error "down")
        ["a", "b"] none).result = true) :=
  mirror_verdict_perm_invariant
    (fun x => if x = "a" then Except.ok 1 else Except.error "down")
    ["a", "b"] ["b", "a"] none (some "b") (by decide)

/- ### Search endpoints of src/main.py -/

/-- One raw result returned by the external library search (the fields of
`moviebox_api.models.SearchResult` that src/main.py reads). -/
structure SR where
  id : Nat
  title : String
  release_year : Option Int
  thumbnail : String
deriving DecidableEq, Repr

/-- Python truthiness of the optional `year` parameter (`if year:` in
src/main.py lines 123, 177, 223, 327): `None` and `0` are falsy. -/
def yearTruthy : Option Int → Bool
  | none => false
  | some y => y != 0

/-- The year filter of src/main.py
(`results = [r for r in results if r.release_year == year]`), applied
only when `year` is truthy. -/
def filterYear (year : Option Int) (rs : List SR) : List SR :=
  if yearTruthy year then rs.filter (fun r => r.release_year == year) else rs

/-- One entry of a search response's `results` array (src/main.py lines
131–138 and 184–192). -/
structure Entry where
  id : Nat
  title : String
  year : Option Int
  thumbnail : String
deriving DecidableEq, Repr

/-- The projection from a raw search result to a response entry
(src/main.py lines 132–137). -/
def toEntry (r : SR) : Entry :=
  { id := r.id, title := r.title, year := r.release_year, thumbnail := r.thumbnail }

/-- A search endpoint response body.  `year_filter = none` models the
no-results response, which lacks the `year_filter` field; `message` is
present only on the no-results response. -/
structure SearchResponse where
  success : Bool
  query : String
  year_filter : Option (Option Int)
  count : Nat
  results : List Entry
  message : Option String
deriving DecidableEq, Repr

/-- The no-results response of src/main.py (lines 114–120 and 169–175). -/
def noResultsResponse (query msg : String) : SearchResponse :=
  { success := true, query := query, year_filter := none, count := 0,
    results := [], message := some msg }

/-- The cache key `f"movie_\x7bquery\x7d_\x7byear\x7d"` of src/main.py line 104. -/
def movieCacheKey (query : String) (year : Option Int) : String :=
  "movie_" ++ query ++ "_" ++ (match year with | none => "None" | some y => toString y)

/-- The cache key `f"series_\x7bquery\x7d_\x7byear\x7d"` of src/main.py line 160. -/
def seriesCacheKey (query : String) (year : Option Int) : String :=
  "series_" ++ query ++ "_" ++ (match year with | none => "None" | some y => toString y)

/-- The shared body of `search_movies` and `search_series` (src/main.py
lines 85–200): consult the `search_cache` dict (modelled as a function
`String → Option SearchResponse`), otherwise run the library search,
return the no-results response uncached when it yields nothing, and
otherwise build, cache and return the response (year filter, `count`
over all filtered results, `results` truncated to the first 30 entries).
Returns the response together with the cache state after the call. -/
def cachedSearch (keyOf : String → Option Int → String) (noMsg : String)
    (search : String → List SR) (cache : String → Option SearchResponse)
    (query : String) (year : Option Int) :
    SearchResponse × (String → Option SearchResponse) :=
  match cache (keyOf query year) with
  | some resp => (resp, cache)
  | none =>
    let raw := search query
    if raw.isEmpty then (noResultsResponse query noMsg, cache)
    else
      let rs := filterYear year raw
      let resp : SearchResponse :=
        { success := true, query := query, year_filter := some year,
          count := rs.length, results := (rs.take 30).map toEntry,
          message := none }
      (resp, fun k => if k = keyOf query year then some resp else cache k)

/-- `search_movies` (src/main.py lines 85–149). -/
def searchMoviesEndpoint : (String → List SR) → (String → Option SearchResponse) →
    String → Option Int → SearchResponse × (String → Option SearchResponse) :=
  cachedSearch movieCacheKey "Aucun film trouve"

/-- `search_series` (src/main.py lines 151–200). -/
def searchSeriesEndpoint : (String → List SR) → (String → Option SearchResponse) →
    String → Option Int → SearchResponse × (String → Option SearchResponse) :=
  cachedSearch seriesCacheKey "Aucune serie trouvee"

lemma cachedSearch_miss_shape (keyOf : String → Option Int → String)
    (noMsg : String) (search : String → List SR)
    (cache : String → Option SearchResponse) (query : String)
    (year : Option Int) (hmiss : cache (keyOf query year) = none) :
    (cachedSearch keyOf noMsg search cache query year).1 =
      (if (search query).isEmpty then noResultsResponse query noMsg
       else
        { success := true, query := query, year_filter := some year,
          count := (filterYear year (search query)).length,
          results := ((filterYear year (search query)).take 30).map toEntry,
          message := none }) := by
  unfold cachedSearch
  rw [hmiss]
  by_cases h : (search query).isEmpty <;> simp [h]

lemma cachedSearch_empty_raw (keyOf : String → Option Int → String)
    (noMsg : String) (search : String → List SR)
    (cache : String → Option SearchResponse) (query : String)
    (year : Option Int) (hraw : search query = []) :
    (cachedSearch keyOf noMsg search cache query year).2 = cache ∧
    (cache (keyOf query year) = none →
      (cachedSearch keyOf noMsg search cache query year).1 =
        noResultsResponse query noMsg) := by
  cases hc : cache (keyOf query year) with
  | some r => simp [cachedSearch, hc]
  | none => simp [cachedSearch, hc, hraw]

lemma cachedSearch_new_key_nonempty (keyOf : String → Option Int → String)
    (noMsg : String) (search : String → List SR)
    (cache : String → Option SearchResponse) (query : String)
    (year : Option Int) (k : String) (hk : cache k = none)
    (hne : (cachedSearch keyOf noMsg search cache query year).2 k ≠ none) :
    search query ≠ [] := by
  intro hraw
  have h := (cachedSearch_empty_raw keyOf noMsg search cache query year hraw).1
  rw [h] at hne
  exact hne hk

lemma cachedSearch_idem (keyOf : String → Option Int → String)
    (noMsg : String) (search : String → List SR)
    (cache : String → Option SearchResponse) (query : String)
    (year : Option Int) :
    (cachedSearch keyOf noMsg search
        (cachedSearch keyOf noMsg search cache query year).2 query year).1 =
      (cachedSearch keyOf noMsg search cache query year).1 ∧
    (cache (keyOf query year) = none → search query ≠ [] →
      (cachedSearch keyOf noMsg search cache query year).2 (keyOf query year) =
        some (cachedSearch keyOf noMsg search cache query year).1) := by
  cases hc : cache (keyOf query year) with
  | some r =>
    constructor
    · simp [cachedSearch, hc]
    · intro h; exact absurd h (by simp)
  | none =>
    by_cases hemp : (search query).isEmpty
    · constructor
      · simp [cachedSearch, hc, hemp]
      · intro _ hne; exact absurd (List.isEmpty_iff.mp hemp) hne
    · constructor
      · simp [cachedSearch, hc, hemp]
      · intro _ _
        simp [cachedSearch, hc, hemp]

/-- Claim C9: every search response the endpoints build (movies and
series) carries at most 30 entries in `results` while `count` is the
total number of results remaining after the year filter, so
`count ≥ results.length`; and `count` can strictly exceed it. -/
theorem search_count_vs_results (query : String) (year : Option Int)
    (raw : List SR) :
    ((searchMoviesEndpoint (fun _ => raw) (fun _ => none) query year).1).results.length ≤ 30 ∧
    ((searchMoviesEndpoint (fun _ => raw) (fun _ => none) query year).1).count =
      (filterYear year raw).length ∧
    ((searchMoviesEndpoint (fun _ => raw) (fun _ => none) query year).1).results.length ≤
      ((searchMoviesEndpoint (fun _ => raw) (fun _ => none) query year).1).count ∧
    ((searchSeriesEndpoint (fun _ => raw) (fun _ => none) query year).1).results.length ≤ 30 ∧
    ((searchSeriesEndpoint (fun _ => raw) (fun _ => none) query year).1).count =
      (filterYear year raw).length ∧
    ((searchSeriesEndpoint (fun _ => raw) (fun _ => none) query year).1).results.length ≤
      ((searchSeriesEndpoint (fun _ => raw) (fun _ => none) query year).1).count ∧
    (∃ raw2 : List SR,
      ((searchMoviesEndpoint (fun _ => raw2) (fun _ => none) "q" none).1).results.length <
        ((searchMoviesEndpoint (fun _ => raw2) (fun _ => none) "q" none).1).count) := by
  have hgen : ∀ (keyOf : String → Option Int → String) (noMsg : String),
      ((cachedSearch keyOf noMsg (fun _ => raw) (fun _ => none) query year).1).results.length ≤ 30 ∧
      ((cachedSearch keyOf noMsg (fun _ => raw) (fun _ => none) query year).1).count =
        (filterYear year raw).length ∧
      ((cachedSearch keyOf noMsg (fun _ => raw) (fun _ => none) query year).1).results.length ≤
        ((cachedSearch keyOf noMsg (fun _ => raw) (fun _ => none) query year).1).count := by
    intro keyOf noMsg
    rw [cachedSearch_miss_shape keyOf noMsg (fun _ => raw) (fun _ => none) query year rfl]
    by_cases h : raw.isEmpty
    · have : raw = [] := List.isEmpty_iff.mp h
      subst this
      simp [noResultsResponse, filterYear]
    · simp only [h, Bool.false_eq_true, if_false, List.length_map, List.length_take]
      refine ⟨?_, ?_, ?_⟩ <;> first
        | trivial
        | omega
  obtain ⟨h1, h2, h3⟩ := hgen movieCacheKey "Aucun film trouve"
  obtain ⟨h4, h5, h6⟩ := hgen seriesCacheKey "Aucune serie trouvee"
  refine ⟨h1, h2, h3, h4, h5, h6, ⟨List.replicate 31 ⟨0, "t", none, "u"⟩, by decide⟩⟩

/-- Claim C10: a search call writes to the cache only when the raw
library search returned at least one result: with no raw results the
no-results response is returned and the cache is unchanged, and any key
that is newly occupied after a call implies that call's raw search was
non-empty (even if the year filter later reduced the cached count to
zero). -/
theorem cache_only_stores_nonempty_raw (search : String → List SR)
    (cache : String → Option SearchResponse) (query : String)
    (year : Option Int) :
    (search query = [] →
      (searchMoviesEndpoint search cache query year).2 = cache ∧
      (searchSeriesEndpoint search cache query year).2 = cache ∧
      (cache (movieCacheKey query year) = none →
        (searchMoviesEndpoint search cache query year).1 =
          noResultsResponse query "Aucun film trouve") ∧
      (cache (seriesCacheKey query year) = none →
        (searchSeriesEndpoint search cache query year).1 =
          noResultsResponse query "Aucune serie trouvee")) ∧
    (∀ k, cache k = none →
      (searchMoviesEndpoint search cache query year).2 k ≠ none →
      search query ≠ []) ∧
    (∀ k, cache k = none →
      (searchSeriesEndpoint search cache query year).2 k ≠ none →
      search query ≠ []) := by
  refine ⟨fun hraw => ?_, fun k hk hne => ?_, fun k hk hne => ?_⟩
  · exact ⟨(cachedSearch_empty_raw movieCacheKey _ search cache query year hraw).1,
      (cachedSearch_empty_raw seriesCacheKey _ search cache query year hraw).1,
      (cachedSearch_empty_raw movieCacheKey _ search cache query year hraw).2,
      (cachedSearch_empty_raw seriesCacheKey _ search cache query year hraw).2⟩
  · exact cachedSearch_new_key_nonempty movieCacheKey _ search cache query year k hk hne
  · exact cachedSearch_new_key_nonempty seriesCacheKey _ search cache query year k hk hne

/-- Claim C10 witness: an empty raw search against an empty cache leaves
the cache unchanged and returns the no-results response. -/
theorem cache_only_stores_nonempty_raw_witness :
    (searchMoviesEndpoint (fun _ => ([] : List SR)) (fun _ => none) "q" none).2 =
      (fun _ => none) ∧
    (searchMoviesEndpoint (fun _ => ([] : List SR)) (fun _ => none) "q" none).1 =
      noResultsResponse "q" "Aucun film trouve" :=
  ⟨((cache_only_stores_nonempty_raw (fun _ => ([] : List SR)) (fun _ => none)
      "q" none).1 rfl).1,
   ((cache_only_stores_nonempty_raw (fun _ => ([] : List SR)) (fun _ => none)
      "q" none).1 rfl).2.2.1 rfl⟩

/-- Claim C7 counterexample: with a raw search returning no results, the
first call's response is successful (`success = true`) yet it is not
stored under the cache key derived from the query and year — refuting
"the first successful response is stored under a cache key derived from
(query, year)". -/
theorem search_empty_not_cached_cex :
    ((searchMoviesEndpoint (fun _ => ([] : List SR)) (fun _ => none) "q" none).1).success
      = true ∧
    (searchMoviesEndpoint (fun _ => ([] : List SR)) (fun _ => none) "q" none).2
      (movieCacheKey "q" none) = none :=
  ⟨rfl, rfl⟩

/-- Claim C7 (amended): invoking a search endpoint twice in sequence with
the same query and year yields the same response both times; when the
cache lacks the key and the raw search returns at least one result, the
first response is stored under the key derived from (query, year) and the
second call returns that stored response; when the raw search returns no
results the response is returned without being cached, and the second
call recomputes the identical response. -/
theorem search_repeat_same_response (search : String → List SR)
    (cache : String → Option SearchResponse) (query : String)
    (year : Option Int) :
    (searchMoviesEndpoint search
        (searchMoviesEndpoint search cache query year).2 query year).1 =
      (searchMoviesEndpoint search cache query year).1 ∧
    (searchSeriesEndpoint search
        (searchSeriesEndpoint search cache query year).2 query year).1 =
      (searchSeriesEndpoint search cache query year).1 ∧
    (cache (movieCacheKey query year) = none → search query ≠ [] →
      (searchMoviesEndpoint search cache query year).2 (movieCacheKey query year) =
        some (searchMoviesEndpoint search cache query year).1) ∧
    (cache (seriesCacheKey query year) = none → search query ≠ [] →
      (searchSeriesEndpoint search cache query year).2 (seriesCacheKey query year) =
        some (searchSeriesEndpoint search cache query year).1) :=
  ⟨(cachedSearch_idem movieCacheKey _ search cache query year).1,
   (cachedSearch_idem seriesCacheKey _ search cache query year).1,
   (cachedSearch_idem movieCacheKey _ search cache query year).2,
   (cachedSearch_idem seriesCacheKey _ search cache query year).2⟩

/-- Claim C7 witness: a one-result search against an empty cache: the
response is stored under the movie cache key, and a repeated call gives
the same response. -/
theorem search_repeat_same_response_witness :
    (searchMoviesEndpoint (fun _ => [SR.mk 1 "t" (some 2020) "u"])
        ((searchMoviesEndpoint (fun _ => [SR.mk 1 "t" (some 2020) "u"])
          (fun _ => none) "q" none).2) "q" none).1 =
      (searchMoviesEndpoint (fun _ => [SR.mk 1 "t" (some 2020) "u"])
        (fun _ => none) "q" none).1 ∧
    (searchMoviesEndpoint (fun _ => [SR.mk 1 "t" (some 2020) "u"])
        (fun _ => none) "q" none).2 (movieCacheKey "q" none) =
      some (searchMoviesEndpoint (fun _ => [SR.mk 1 "t" (some 2020) "u"])
        (fun _ => none) "q" none).1 :=
  ⟨(search_repeat_same_response (fun _ => [SR.mk 1 "t" (some 2020) "u"])
      (fun _ => none) "q" none).1,
   (search_repeat_same_response (fun _ => [SR.mk 1 "t" (some 2020) "u"])
      (fun _ => none) "q" none).2.2.1 rfl (by decide)⟩

/- ### Stream-URL handlers of src/main.py -/

/-- An HTTP error as raised inside the handlers: status code and detail
string.  The IndexError raised by `results[0]` on an empty list is
modelled as the 500 the generic `except Exception` clause of the handler
converts it into. -/
def pickStatus : Except (Nat × String) SR → Option Nat
  | .error (s, _) => some s
  | .ok _ => none

/-- Python `results[0]` (src/main.py lines 231 and 330): the first
element, or an IndexError on an empty list — which the enclosing
`except Exception` clause turns into an HTTP 500. -/
def indexZero : List SR → Except (Nat × String) SR
  | [] => .error (500, "IndexError")
  | r :: _ => .ok r

/-- The search-and-filter phase of `get_movie_stream_url` (src/main.py
lines 214–231): 404 when the search is empty, 404 when the year filter
empties a non-empty result list, otherwise the first (filtered)
result. -/
def moviePickFirst (raw : List SR) (year : Option Int) :
    Except (Nat × String) SR :=
  if raw.isEmpty then .error (404, "Film non trouve")
  else if yearTruthy year then
    let f := raw.filter (fun r => r.release_year == year)
    if f.isEmpty then .error (404, "Film pour cette annee non trouve")
    else indexZero f
  else indexZero raw

/-- The search-and-filter phase of `get_series_stream_url` (src/main.py
lines 319–330): 404 when the search is empty, but no emptiness check
after the year filter — `results[0]` is taken directly from the filtered
list. -/
def seriesPickFirst (raw : List SR) (year : Option Int) :
    Except (Nat × String) SR :=
  if raw.isEmpty then .error (404, "Serie non trouvee")
  else indexZero (filterYear year raw)

/-- Claim C4 counterexample: one raw series result from year 2000,
requested year 1999: the year filter removes every result and the series
handler fails with HTTP 500 (an IndexError from `results[0]` caught by
the generic handler), not 404 as the claim states for both endpoints. -/
theorem series_year_filter_500_cex :
    pickStatus (seriesPickFirst [SR.mk 1 "t" (some 2000) "u"] (some 1999)) =
      some 500 ∧
    pickStatus (seriesPickFirst [SR.mk 1 "t" (some 2000) "u"] (some 1999)) ≠
      some 404 := by
  constructor <;> decide

/-- Claim C4 (amended): when the search returns a non-empty result list
and the (truthy) year filter removes every result, the movie endpoint
fails with HTTP 404, but the series endpoint fails with HTTP 500 — its
handler indexes the emptied list, and the resulting IndexError is caught
by the generic exception clause. -/
theorem year_filter_empty_status (raw : List SR) (year : Option Int)
    (hraw : raw ≠ []) (hy : yearTruthy year = true)
    (hf : raw.filter (fun r => r.release_year == year) = []) :
    pickStatus (moviePickFirst raw year) = some 404 ∧
    pickStatus (seriesPickFirst raw year) = some 500 := by
  have hne : raw.isEmpty = false := List.isEmpty_eq_false.mpr hraw
  constructor
  · simp [moviePickFirst, hne, hy, hf, pickStatus]
  · simp [seriesPickFirst, hne, filterYear, hy, hf, indexZero, pickStatus]

/-- Claim C4 witness: the concrete input of the counterexample satisfies
the amended claim's hypotheses. -/
theorem year_filter_empty_status_witness :
    pickStatus (moviePickFirst [SR.mk 1 "t" (some 2000) "u"] (some 1999)) =
      some 404 ∧
    pickStatus (seriesPickFirst [SR.mk 1 "t" (some 2000) "u"] (some 1999)) =
      some 500 :=
  year_filter_empty_status [SR.mk 1 "t" (some 2000) "u"] (some 1999)
    (by decide) (by decide) (by decide)

/- ### Error-status mapping of the handlers -/

/-- The kinds of underlying (library) errors the specification
distinguishes.  src/main.py itself never inspects them. -/
inductive UnderlyingError where
  | accessDenied
  | notFound
  | otherErr (msg : String)
deriving DecidableEq, Repr

/-- How a handler body terminates: a returned payload, an HTTPException
the handler raised itself, or an underlying (library) exception. -/
inductive HandlerOutcome (ρ : Type) where
  | ok (r : ρ)
  | httpExc (status : Nat) (detail : String)
  | exc (e : UnderlyingError)
deriving Repr

/-- The `try/except` wrapping of the two stream handlers
(src/main.py lines 296–303 and 416–420): a returned payload becomes HTTP
200 with that payload; `except HTTPException: raise` lets a handler-raised
`HTTPException` propagate with its own status; every other exception
becomes HTTP 500.  The result is the HTTP status and the payload, if
any. -/
def runStreamHandler : HandlerOutcome ρ → Nat × Option ρ
  | .ok r => (200, some r)
  | .httpExc s _ => (s, none)
  | .exc _ => (500, none)

/-- The `try/except` wrapping of `search_movies`, `search_series` and
`get_series_info` (src/main.py lines 144–149, 198–200 and 460–462): a
returned payload becomes HTTP 200 with that payload, but the lone
`except Exception` clause catches every exception — including a
handler-raised `HTTPException`, which subclasses `Exception` (so
`get_series_info`'s own 404 at line 433 is re-raised as a 500) — and
converts it to HTTP 500. -/
def runInfoHandler : HandlerOutcome ρ → Nat × Option ρ
  | .ok r => (200, some r)
  | .httpExc _ _ => (500, none)
  | .exc _ => (500, none)

/-- The status mapping the claim asserts for underlying errors: 403 for
upstream access denied, 404 for content not found, 500 otherwise.
Written from the claim's words, for comparison with `runHandler`. -/
def claimErrorStatus : UnderlyingError → Nat
  | .accessDenied => 403
  | .notFound => 404
  | .otherErr _ => 500

/-- Claim C3 counterexample: an underlying access-denied error is mapped
to HTTP 500 by both handler wrappings, not to the 403 the claim requires;
an underlying not-found error likewise maps to 500, not 404; and
`get_series_info`'s lone `except Exception` clause even converts the
handler's own 404 into a 500. -/
theorem underlying_denied_maps_500_cex :
    (runStreamHandler (HandlerOutcome.exc .accessDenied : HandlerOutcome Nat)).1 = 500 ∧
    (runInfoHandler (HandlerOutcome.exc .accessDenied : HandlerOutcome Nat)).1 = 500 ∧
    claimErrorStatus .accessDenied = 403 ∧
    (runStreamHandler (HandlerOutcome.exc .notFound : HandlerOutcome Nat)).1 = 500 ∧
    (runInfoHandler (HandlerOutcome.exc .notFound : HandlerOutcome Nat)).1 = 500 ∧
    claimErrorStatus .notFound = 404 ∧
    (runInfoHandler (HandlerOutcome.httpExc 404 "Serie non trouvee" : HandlerOutcome Nat)).1
      = 500 ∧
    (500 : Nat) ≠ 403 ∧ (500 : Nat) ≠ 404 := by
  refine ⟨rfl, rfl, rfl, rfl, rfl, rfl, rfl, ?_, ?_⟩ <;> decide

/-- Claim C3 (amended): handler success is mapped to HTTP 200 carrying
the result payload.  In the two stream handlers an HTTPException raised
by the handler itself keeps its own status (that is where the stream
404s originate); in `search_movies`, `search_series` and
`get_series_info` the lone `except Exception` clause converts every
exception — even `get_series_info`'s own HTTPException(404) — into HTTP
500.  Every underlying error — whether it indicates access denied,
content not found, or anything else — is mapped to HTTP 500 by all
handlers; no 403 mapping exists anywhere. -/
theorem handler_status_mapping (ρ : Type) (r : ρ) (s : Nat) (d : String)
    (e : UnderlyingError) :
    runStreamHandler (HandlerOutcome.ok r) = (200, some r) ∧
    runInfoHandler (HandlerOutcome.ok r) = (200, some r) ∧
    runStreamHandler (HandlerOutcome.httpExc s d : HandlerOutcome ρ) = (s, none) ∧
    runInfoHandler (HandlerOutcome.httpExc s d : HandlerOutcome ρ) = (500, none) ∧
    runStreamHandler (HandlerOutcome.exc e : HandlerOutcome ρ) = (500, none) ∧
    runInfoHandler (HandlerOutcome.exc e : HandlerOutcome ρ) = (500, none) :=
  ⟨rfl, rfl, rfl, rfl, rfl, rfl⟩

/- ### Quality selection of the stream handlers -/

/-- The fallback priority order of src/main.py lines 247 and 369. -/
def priorityList : List String :=
  ["best", "1080p", "720p", "480p", "360p", "worst"]

/-- Python falsiness of `stream_url` (`if not stream_url:` in src/main.py
lines 254, 258, 376, 380): `None` and the empty string are falsy. -/
def urlFalsy : Option String → Bool
  | none => true
  | some s => s.isEmpty

/-- Lookup in the `available_qualities` dict, modelled as an association
list in insertion order (Python dicts preserve insertion order and have
unique keys). -/
def qLookup : List (String × String) → String → Option String
  | [], _ => none
  | (a, b) :: t, k => if a = k then some b else qLookup t k

/-- The quality-selection block shared by both stream handlers
(src/main.py lines 237–262 and 361–384): take the requested quality if it
is a key; otherwise the first priority-order quality present; if the URL
chosen so far is falsy and the dict is non-empty, fall back to the dict's
first key; finally raise the 404 "no streaming URL" error when the URL is
still falsy.  Returns `some (delivered quality, url)` or `none` for the
404. -/
def pickStream (qualities : List (String × String)) (requested : String) :
    Option (String × String) :=
  let chosen : String × Option String :=
    match qLookup qualities requested with
    | some u => (requested, some u)
    | none =>
      match priorityList.find? (fun q => (qLookup qualities q).isSome) with
      | some q => (q, qLookup qualities q)
      | none => (requested, none)
  let final : String × Option String :=
    if urlFalsy chosen.2 && !qualities.isEmpty then
      match qualities with
      | (k, u) :: _ => (k, some u)
      | [] => chosen
    else chosen
  match final.2 with
  | none => none
  | some u => if u.isEmpty then none else some (final.1, u)

/-- The selection cascade exactly as the claim words it: the requested
quality if it is a key, else the first priority-order quality present,
else the first key of a non-empty mapping; 404 exactly when the URL of
the quality so selected is absent or empty.  Written from the claim, for
comparison with `pickStream`. -/
def claimPickStream (qualities : List (String × String))
    (requested : String) : Option (String × String) :=
  let sel : Option String :=
    if (qLookup qualities requested).isSome then some requested
    else
      match priorityList.find? (fun q => (qLookup qualities q).isSome) with
      | some q => some q
      | none =>
        match qualities with
        | (k, _) :: _ => some k
        | [] => none
  match sel with
  | none => none
  | some s =>
    match qLookup qualities s with
    | none => none
    | some u => if u.isEmpty then none else some (s, u)

/-- The fallback the code applies when the previously chosen URL is
falsy: the first entry of the dict, delivered when its URL is non-empty,
404 otherwise. -/
def firstFallback : List (String × String) → Option (String × String)
  | [] => none
  | (k, u) :: _ => if u.isEmpty then none else some (k, u)

lemma isEmpty_false_of_ne (u : String) (h : u ≠ "") : u.isEmpty = false := by
  cases hc : u.isEmpty
  · rfl
  · exact absurd (String.isEmpty_iff u |>.mp hc) h

lemma empty_string_isEmpty : ("" : String).isEmpty = true := by decide

/-- Claim C8 counterexample: qualities b ↦ "u", a ↦ "" and requested
quality a.  The claim selects a (a key of the mapping) and, its URL being
empty, requires the 404; the code instead falls back to the first key b
and delivers b with URL "u". -/
theorem quality_empty_url_fallback_cex :
    pickStream [("b", "u"), ("a", "")] "a" = some ("b", "u") ∧
    claimPickStream [("b", "u"), ("a", "")] "a" = none := by
  constructor <;> decide

/-- Claim C8 (amended): the handlers first choose the requested quality
if it is a key of the mapping, else the first priority-order quality
present; if the URL of that choice is non-empty it is delivered with that
quality, but if it is empty — or no quality was chosen — the handlers
fall back to the mapping's first entry, delivering it when its URL is
non-empty; the 404 "no streaming URL available" error is raised exactly
when the URL finally selected (after this first-entry fallback) is absent
or empty. -/
theorem quality_selection_amended (m : List (String × String)) (r : String) :
    (∀ u, qLookup m r = some u → u ≠ "" → pickStream m r = some (r, u)) ∧
    (qLookup m r = some "" → pickStream m r = firstFallback m) ∧
    (qLookup m r = none →
      ∀ q, priorityList.find? (fun x => (qLookup m x).isSome) = some q →
        ((∃ u, qLookup m q = some u ∧ u ≠ "" ∧ pickStream m r = some (q, u)) ∨
         (qLookup m q = some "" ∧ pickStream m r = firstFallback m))) ∧
    (qLookup m r = none →
      priorityList.find? (fun x => (qLookup m x).isSome) = none →
      pickStream m r = firstFallback m) := by
  have hnonempty : ∀ (k u0 : String), qLookup m k = some u0 → ∃ p t, m = p :: t := by
    intro k u0 hk
    cases m with
    | nil => simp [qLookup] at hk
    | cons p t => exact ⟨p, t, rfl⟩
  refine ⟨?_, ?_, ?_, ?_⟩
  · intro u hu hne
    have hemp : u.isEmpty = false := isEmpty_false_of_ne u hne
    simp [pickStream, hu, urlFalsy, hemp]
  · intro hu
    obtain ⟨⟨k, u0⟩, t, rfl⟩ := hnonempty r "" hu
    simp [pickStream, hu, urlFalsy, firstFallback, empty_string_isEmpty]
  · intro hr q hq
    have hqs : (qLookup m q).isSome = true := by
      have := List.find?_some hq
      simpa using this
    obtain ⟨u, hu⟩ := Option.isSome_iff_exists.mp hqs
    by_cases hne : u = ""
    · subst hne
      refine Or.inr ⟨hu, ?_⟩
      obtain ⟨⟨k, u0⟩, t, rfl⟩ := hnonempty q "" hu
      simp [pickStream, hr, hq, hu, urlFalsy, firstFallback, empty_string_isEmpty]
    · have hemp : u.isEmpty = false := isEmpty_false_of_ne u hne
      exact Or.inl ⟨u, hu, hne, by simp [pickStream, hr, hq, hu, urlFalsy, hemp]⟩
  · intro hr hq
    cases m with
    | nil => simp [pickStream, hr, hq, urlFalsy, firstFallback, qLookup, List.find?]
    | cons p t =>
      obtain ⟨k, u⟩ := p
      simp [pickStream, hr, hq, urlFalsy, firstFallback]

/-- Claim C8 witness: the requested quality is a key with a non-empty
URL and is delivered as requested. -/
theorem quality_selection_amended_witness :
    pickStream [("best", "x")] "best" = some ("best", "x") :=
  (quality_selection_amended [("best", "x")] "best").1 "x" (by decide) (by decide)
